import Mathlib

/-!
Shallow embedding of the `mononym` crate (Ghosts of Departed Proofs in Rust)
and of its example programs.

Modelling conventions:

* In Rust, identity tokens are phantom types minted one per call site
  (`SomeName<F>` for a fresh closure type `F`); uniqueness is enforced by the
  type checker.  In this term-level embedding an identity token (`NameTag`)
  is the seed's position in the split/mint tree: a list of child indices.
  `Seed.replicate` and friends extend the path with distinct indices, so
  seeds arising from independent splits carry distinct paths, and the name a
  seed mints is its path.  This reflects the discipline that every seed is
  consumed by exactly one mint or split.
* `Named<Name, V>` becomes a structure pairing the runtime value with its
  `NameTag`.
* A witness type `P<XVal, YVal, ...>` generated by the `proof!` macro is a
  zero-field structure indexed by the subject `NameTag`s (the term-level
  image of its phantom type parameters).  Rejection of a witness for the
  wrong identity by the Rust type checker corresponds to inequality of the
  name indices here.
* `exists!`-generated dependent pairs become structures whose witness field
  depends on the name of the freshly minted `Named` field.
* Machine integers: `u32` and `usize` values are `Nat`; the one place the
  examples perform unchecked `usize` arithmetic (`x * 2` in
  `greater_than_half`) is modelled with an explicit wrap modulo `2 ^ 64`
  (64-bit `usize`, release-mode wrapping semantics); `i64` values are `Int`.
* Fallible Rust code returns `Option`/`Except`; the `first().unwrap()` panic
  branch in `min` is modelled as the `none` branch of an `Option` result.
* `f64` arithmetic in `to_percentage` is modelled over `ℚ`; on the inputs of
  the percentage scenario (2 and 4) every IEEE-754 operation involved is
  exact, so the rational result coincides with the `f64` result.
-/

namespace Mononym

/-- Identity token: the position of the minting seed in the split tree.
Corresponds to the phantom name types `SomeName<F>` of
`src/named/internal.rs`. -/
abbrev NameTag := List Nat

/-- The seed capability of `src/named/internal.rs` (`Seed<N>`), carrying its
position in the split tree. -/
structure Seed where
  path : NameTag
deriving DecidableEq

/-- The `Named<Name, Value>` container of `src/named/internal.rs`: a runtime
value bound to an identity token. -/
structure Named (V : Type) where
  name : NameTag
  value : V
deriving DecidableEq

/-- `Named::into_value` — consuming unwrap returning the inner value. -/
def Named.into_value {V : Type} (n : Named V) : V :=
  n.value

/-- `Seed::new_name` — mint the identity token at this seed's position. -/
def Seed.new_name (s : Seed) : NameTag :=
  s.path

/-- `Seed::new_named` — consume the seed, binding a freshly minted identity
to `value`. -/
def Seed.new_named {V : Type} (s : Seed) (value : V) : Named V :=
  ⟨s.path, value⟩

/-- `Seed::replicate` — split the seed into two independent children. -/
def Seed.replicate (s : Seed) : Seed × Seed :=
  (⟨s.path ++ [0]⟩, ⟨s.path ++ [1]⟩)

/-- `Seed::replicate_3`. -/
def Seed.replicate_3 (s : Seed) : Seed × Seed × Seed :=
  (⟨s.path ++ [0]⟩, ⟨s.path ++ [1]⟩, ⟨s.path ++ [2]⟩)

/-- `Seed::replicate_4`. -/
def Seed.replicate_4 (s : Seed) : Seed × Seed × Seed × Seed :=
  (⟨s.path ++ [0]⟩, ⟨s.path ++ [1]⟩, ⟨s.path ++ [2]⟩, ⟨s.path ++ [3]⟩)

/-- `Seed::replicate_5`. -/
def Seed.replicate_5 (s : Seed) : Seed × Seed × Seed × Seed × Seed :=
  (⟨s.path ++ [0]⟩, ⟨s.path ++ [1]⟩, ⟨s.path ++ [2]⟩, ⟨s.path ++ [3]⟩,
    ⟨s.path ++ [4]⟩)

/-- `Seed::replicate_6`. -/
def Seed.replicate_6 (s : Seed) : Seed × Seed × Seed × Seed × Seed × Seed :=
  (⟨s.path ++ [0]⟩, ⟨s.path ++ [1]⟩, ⟨s.path ++ [2]⟩, ⟨s.path ++ [3]⟩,
    ⟨s.path ++ [4]⟩, ⟨s.path ++ [5]⟩)

/-- `Seed::replicate_7`. -/
def Seed.replicate_7 (s : Seed) :
    Seed × Seed × Seed × Seed × Seed × Seed × Seed :=
  (⟨s.path ++ [0]⟩, ⟨s.path ++ [1]⟩, ⟨s.path ++ [2]⟩, ⟨s.path ++ [3]⟩,
    ⟨s.path ++ [4]⟩, ⟨s.path ++ [5]⟩, ⟨s.path ++ [6]⟩)

/-- `Seed::replicate_8`. -/
def Seed.replicate_8 (s : Seed) :
    Seed × Seed × Seed × Seed × Seed × Seed × Seed × Seed :=
  (⟨s.path ++ [0]⟩, ⟨s.path ++ [1]⟩, ⟨s.path ++ [2]⟩, ⟨s.path ++ [3]⟩,
    ⟨s.path ++ [4]⟩, ⟨s.path ++ [5]⟩, ⟨s.path ++ [6]⟩, ⟨s.path ++ [7]⟩)

/-- Modelled from the spec: the generic n-way split variant of the seed
authority ("split operation with fixed small arities and a general n-way
form").  The fixed arities live in `src/named/internal.rs`; the general
n-way form belongs to the crate's public seed API, which is not among the
provided source files.  Like the fixed arities it extends the parent's path
with distinct child indices. -/
def Seed.replicate_n (s : Seed) (n : Nat) : List Seed :=
  (List.range n).map (fun i => ⟨s.path ++ [i]⟩)

/-- `with_seed` — run a continuation with a root seed. -/
def with_seed {R : Type} (cont : Seed → R) : R :=
  cont ⟨[]⟩

/-!  `examples/number.rs`  -/

/-- Witness of `proof! { LessThanEq(x: u32, y: u32) }` — indexed by the names
of its two `u32` subjects. -/
structure LessThanEq (xn yn : NameTag) where

/-- `check_less_than_eq` from `examples/number.rs`: returns a witness exactly
when the value named `x` is `<=` the value named `y`. -/
def check_less_than_eq (x y : Named Nat) : Option (LessThanEq x.name y.name) :=
  if x.value ≤ y.value then some ⟨⟩ else none

/-- Witness of `proof! { NonZero(num: u32) }`. -/
structure NonZero (numn : NameTag) where

/-- `check_non_zero` from `examples/number.rs`. -/
def check_non_zero (x : Named Nat) : Option (NonZero x.name) :=
  if x.value ≠ 0 then some ⟨⟩ else none

/-- `to_percentage` from `examples/number.rs`.  The Rust function computes
`x as f64 / y as f64 * 100.0`; it is modelled over `ℚ`.  The two witness
arguments are required but not inspected, exactly as in the source. -/
def to_percentage (x y : Named Nat)
    (_numerator_lte_denom : LessThanEq x.name y.name)
    (_denom_not_zero : NonZero y.name) : ℚ :=
  (x.value : ℚ) / (y.value : ℚ) * 100

/-- The named value `x` built in `main` of `examples/number.rs`
(`new_named(seed1, 2)` after one split of the root seed). -/
def number_main_x : Named Nat :=
  (Seed.replicate ⟨[]⟩).1.new_named 2

/-- The named value `y` built in `main` of `examples/number.rs`
(`new_named(seed2, 4)`). -/
def number_main_y : Named Nat :=
  (Seed.replicate ⟨[]⟩).2.new_named 4

/-!  `examples/list.rs`  -/

/-- 64-bit `usize` modulus for the wrapping multiplication in
`greater_than_half`. -/
def usizeMod : Nat := 2 ^ 64

/-- Witness of `exists! { ExistSize(size: usize) => ListHasSize<T>(list) }`:
`ListHasSize<T, SizeVal, ListVal>`.  The same declaration appears in
`examples/list.rs` and (as `ExistListSize`) in
`examples/data_structures.rs`. -/
structure ListHasSize (T : Type) (sizen listn : NameTag) where

/-- The `ExistSize` dependent pair of `examples/list.rs`: a freshly named
size together with a `ListHasSize` witness whose leading name is the size's
own fresh name. -/
structure ExistSize (T : Type) (listn : NameTag) where
  size : Named Nat
  list_has_size : ListHasSize T size.name listn

/-- Generated constructor `new_exist_size`. -/
def new_exist_size {T : Type} (seed : Seed) (listn : NameTag) (size : Nat) :
    ExistSize T listn :=
  ⟨seed.new_named size, ⟨⟩⟩

/-- `list_size` from `examples/list.rs`: name the length of the list. -/
def list_size {T : Type} (seed : Seed) (list : Named (List T)) :
    ExistSize T list.name :=
  new_exist_size seed list.name list.value.length

/-- Witness of `exists! { ExistPositives(count: usize) =>
ListHasPositives(list: Vec<i64>) }`. -/
structure ListHasPositives (countn listn : NameTag) where

/-- The `ExistPositives` dependent pair of `examples/list.rs`. -/
structure ExistPositives (listn : NameTag) where
  count : Named Nat
  list_has_positives : ListHasPositives count.name listn

/-- Generated constructor `new_exist_positives`. -/
def new_exist_positives (seed : Seed) (listn : NameTag) (count : Nat) :
    ExistPositives listn :=
  ⟨seed.new_named count, ⟨⟩⟩

/-- `count_positive_integers` from `examples/list.rs`: count the strictly
positive entries (`filter(|x| **x > 0).count()`). -/
def count_positive_integers (seed : Seed) (list : Named (List Int)) :
    ExistPositives list.name :=
  new_exist_positives seed list.name
    ((list.value.filter (fun x => decide (0 < x))).length)

/-- Witness of `proof! { GreaterThanHalf(numerator: usize, denominator:
usize) }`. -/
structure GreaterThanHalf (numn denomn : NameTag) where

/-- `greater_than_half` from `examples/list.rs`: tests `*x.value() * 2 >
*y.value()`.  The `usize` product `x * 2` is unchecked in the source and is
modelled with release-mode wrapping, i.e. reduction modulo `2 ^ 64`. -/
def greater_than_half (x y : Named Nat) :
    Option (GreaterThanHalf x.name y.name) :=
  if x.value * 2 % usizeMod > y.value then some ⟨⟩ else none

/-- Witness of `proof! { GreaterThanHalfPositive(list: Vec<i64>) }`. -/
structure GreaterThanHalfPositive (listn : NameTag) where

/-- Inference rule `greater_than_half_positive` from `examples/list.rs`:
combines the three witnesses, inspecting no values. -/
def greater_than_half_positive {listn totaln posn : NameTag}
    (_has_size : ListHasSize Int totaln listn)
    (_has_positives : ListHasPositives posn listn)
    (_greater_than_half : GreaterThanHalf posn totaln) :
    GreaterThanHalfPositive listn :=
  ⟨⟩

/-- `maybe_greater_than_half_positive` from `examples/list.rs`. -/
def maybe_greater_than_half_positive (seed : Seed)
    (data : Named (List Int)) : Option (GreaterThanHalfPositive data.name) :=
  let seed1 := seed.replicate.1
  let seed2 := seed.replicate.2
  let size := list_size seed1 data
  let positives := count_positive_integers seed2 data
  let greater_half := greater_than_half positives.count size.size
  greater_half.map (fun gh =>
    greater_than_half_positive size.list_has_size
      positives.list_has_positives gh)

/-- The error enum of `examples/list.rs`. -/
inductive ListError where
  | LessThanHalfPositive
deriving DecidableEq

/-- `process_data` from module `process_static` of `examples/list.rs`:
requires a `GreaterThanHalfPositive` witness for the list and returns 0. -/
def process_data_static (data : Named (List Int))
    (_greater_than_half_positive : GreaterThanHalfPositive data.name) :
    Int :=
  0

/-- `process_data` from module `process_data_dynamic` of
`examples/list.rs`. -/
def process_data (data : List Int) : Except ListError Int :=
  with_seed (fun life =>
    let seed1 := life.replicate.1
    let seed2 := life.replicate.2
    let data := seed1.new_named data
    match maybe_greater_than_half_positive seed2 data with
    | none => Except.error ListError.LessThanHalfPositive
    | some proof => Except.ok (process_data_static data proof))

/-!  `examples/data_structures.rs`  -/

/-- Witness of `proof! { NonEmpty<T>(list: Vec<T>) }` from module `size` of
`examples/data_structures.rs`. -/
structure NonEmpty (T : Type) (listn : NameTag) where

/-- Phantom proof `Sorted<ListVal>` from module `sort` of
`examples/data_structures.rs`. -/
structure Sorted (listn : NameTag) where

/-- Phantom proof `SortedFrom<NewListVal, OldListVal>` from module `sort` of
`examples/data_structures.rs`. -/
structure SortedFrom (newn oldn : NameTag) where

/-- `list_not_empty` from module `size` of `examples/data_structures.rs`. -/
def list_not_empty {T : Type} {listn : NameTag} (size : Named Nat)
    (_list_has_size : ListHasSize T size.name listn) :
    Option (NonEmpty T listn) :=
  if size.value = 0 then none else some ⟨⟩

/-- Inference rule `sorted_preserve_size` from module `size` of
`examples/data_structures.rs`: transfers a `ListHasSize` witness from the
old list identity to the sorted list's identity, keeping the same size
name.  It takes only witnesses — no list value. -/
def sorted_preserve_size {T : Type} {oldn newn sizen : NameTag}
    (_size : ListHasSize T sizen oldn) (_sorted : Sorted newn)
    (_sorted_from : SortedFrom newn oldn) : ListHasSize T sizen newn :=
  ⟨⟩

/-- Inference rule `sorted_preserve_non_empty` from module `size` of
`examples/data_structures.rs`. -/
def sorted_preserve_non_empty {T : Type} {oldn newn : NameTag}
    (_non_empty : NonEmpty T oldn) (_sorted : Sorted newn)
    (_sorted_from : SortedFrom newn oldn) : NonEmpty T newn :=
  ⟨⟩

/-- `SortedResult` from module `sort` of `examples/data_structures.rs`. -/
structure SortedResult (T : Type) (oldn : NameTag) where
  new_list : Named (List T)
  sorted : Sorted new_list.name
  sorted_from : SortedFrom new_list.name oldn

/-- `sort` from module `sort` of `examples/data_structures.rs`: sort the
unwrapped list, name the result freshly, and attach the `Sorted` and
`SortedFrom` proofs. -/
def sort {T : Type} [LinearOrder T] (seed : Seed) (list : Named (List T)) :
    SortedResult T list.name :=
  ⟨seed.new_named (list.into_value.mergeSort (fun a b => decide (a ≤ b))),
    ⟨⟩, ⟨⟩⟩

/-- `MinElem<ListVal, ElemVal>` from module `min` of
`examples/data_structures.rs`. -/
structure MinElem (listn elemn : NameTag) where

/-- `MinResult` from module `min` of `examples/data_structures.rs`: a named
reference to the minimum element plus its `MinElem` proof.  The Rust
`Named<ElemVal, &'a Elem>` reference is modelled by the element value. -/
structure MinResult (T : Type) (listn : NameTag) where
  elem : Named T
  min_proof : MinElem listn elem.name

/-- `min` from module `min` of `examples/data_structures.rs` (the same
function appears in `examples/sort.rs`).  The source takes the `Sorted` and
`NonEmpty` witnesses and evaluates `list.value().first().unwrap()`; the
panic of `unwrap` on an empty list is modelled by the `none` branch. -/
def min {T : Type} (seed : Seed) (list : Named (List T))
    (_sorted : Sorted list.name) (_non_empty : NonEmpty T list.name) :
    Option (MinResult T list.name) :=
  match list.value.head? with
  | some elem => some ⟨seed.new_named elem, ⟨⟩⟩
  | none => none

/-!  Theorems for the claims.  -/

/-- C1: for every value `v` and every seed, constructing a `Named` container
with `new_named(seed, v)` and then unwrapping it with `into_value` returns
exactly `v`. -/
theorem c1_new_named_into_value {V : Type} (s : Seed) (v : V) :
    (s.new_named v).into_value = v :=
  rfl

/-- C2: the verifiers of `examples/number.rs` return an optional witness and
never fail any other way: `check_less_than_eq x y` is present exactly when
the value behind `x` is `≤` the value behind `y`, and `check_non_zero z` is
present exactly when the value behind `z` is not 0.  Both functions are
total, so a failed check is the `none` branch, never a panic. -/
theorem c2_verifiers_return_optional_witness (x y z : Named Nat) :
    ((check_less_than_eq x y).isSome ↔ x.value ≤ y.value) ∧
    ((check_non_zero z).isSome ↔ z.value ≠ 0) := by
  constructor
  · unfold check_less_than_eq
    split <;> simp_all
  · unfold check_non_zero
    split <;> simp_all

/-- C3: `check_less_than_eq` is deterministic — named inputs with equal
underlying `u32` values always produce the same present/absent outcome —
and in particular checking `2 ≤ 4` always yields a witness while checking
`4 ≤ 2` always yields none, whatever the identities involved. -/
theorem c3_verifier_deterministic (x1 y1 x2 y2 : Named Nat)
    (hx : x1.value = x2.value) (hy : y1.value = y2.value) :
    (check_less_than_eq x1 y1).isSome = (check_less_than_eq x2 y2).isSome ∧
    (∀ a b : Named Nat, a.value = 2 → b.value = 4 →
      (check_less_than_eq a b).isSome = true ∧
      (check_less_than_eq b a).isSome = false) := by
  constructor
  · unfold check_less_than_eq
    rw [hx, hy]
    split <;> simp
  · intro a b ha hb
    unfold check_less_than_eq
    rw [ha, hb]
    constructor <;> simp

/-- Witness for C3 at concrete inputs: the identities `[0]`/`[1]` versus
`[2]`/`[3]` both carry the values 2 and 4, and the concrete checks of
`2 ≤ 4` and `4 ≤ 2` come out present and absent. -/
theorem c3_verifier_deterministic_witness :
    (check_less_than_eq ⟨[0], 2⟩ ⟨[1], 4⟩).isSome =
      (check_less_than_eq ⟨[2], 2⟩ ⟨[3], 4⟩).isSome ∧
    (check_less_than_eq ⟨[0], 2⟩ ⟨[1], 4⟩).isSome = true ∧
    (check_less_than_eq ⟨[1], 4⟩ ⟨[0], 2⟩).isSome = false := by
  have h := c3_verifier_deterministic ⟨[0], 2⟩ ⟨[1], 4⟩ ⟨[2], 2⟩ ⟨[3], 4⟩
    rfl rfl
  exact ⟨h.1, h.2 ⟨[0], 2⟩ ⟨[1], 4⟩ rfl rfl⟩

/-- C5: the inference rules `sorted_preserve_size` and
`sorted_preserve_non_empty` are total constant functions on witnesses: from
a `ListHasSize` (resp. `NonEmpty`) witness for the old identity plus the
`Sorted`/`SortedFrom` witnesses for the new identity they unconditionally
return the corresponding witness for the new identity — their types take no
list value at all, so nothing is re-counted or re-inspected, and the size
name `sizen` is carried over unchanged. -/
theorem c5_sorted_preserve_witnesses {T : Type} (oldn newn sizen : NameTag)
    (hs : ListHasSize T sizen oldn) (ne : NonEmpty T oldn)
    (srt : Sorted newn) (sf : SortedFrom newn oldn) :
    sorted_preserve_size hs srt sf = (⟨⟩ : ListHasSize T sizen newn) ∧
    sorted_preserve_non_empty ne srt sf = (⟨⟩ : NonEmpty T newn) :=
  ⟨rfl, rfl⟩

/-- C6: in the scenario of `main` in `examples/number.rs` — identities bound
to 2 and 4 — `check_less_than_eq` and `check_non_zero` both produce
witnesses, and `to_percentage` on the two named values with those witnesses
returns exactly 50 (the `f64` computation `2.0 / 4.0 * 100.0` is exact, so
its rational model returns the same value). -/
theorem c6_percentage_scenario :
    (check_less_than_eq number_main_x number_main_y).isSome = true ∧
    (check_non_zero number_main_y).isSome = true ∧
    ∀ (w1 : LessThanEq number_main_x.name number_main_y.name)
      (w2 : NonZero number_main_y.name),
      to_percentage number_main_x number_main_y w1 w2 = 50 := by
  refine ⟨by decide, by decide, fun w1 w2 => ?_⟩
  show (2 : ℚ) / 4 * 100 = 50
  norm_num

/-- C9: `min` cannot hit its `unwrap` panic when the list behind the
`NonEmpty` witness is actually non-empty: the element it returns is named
from the first element of the list (`map` over the result agrees with
`head?`), and the `none` branch — the model of the panic — is taken exactly
when the list is empty, which is reachable only through a fabricated
`NonEmpty` witness. -/
theorem c9_min_returns_head {T : Type} (seed : Seed) (list : Named (List T))
    (srt : Sorted list.name) (ne : NonEmpty T list.name) :
    ((Mononym.min seed list srt ne).map (fun r => r.elem.value) =
      list.value.head?) ∧
    (Mononym.min seed list srt ne = none ↔ list.value = []) := by
  unfold Mononym.min
  cases hl : list.value with
  | nil => simp [hl]
  | cons a t => simp [hl, Seed.new_named]

/-- Two children of one seed with distinct split indices are distinct
seeds. -/
theorem seed_child_ne (p : NameTag) {i j : Nat} (h : i ≠ j) :
    (⟨p ++ [i]⟩ : Seed) ≠ ⟨p ++ [j]⟩ := by
  intro hc
  apply h
  have hpath := congrArg Seed.path hc
  simpa using List.append_cancel_left hpath

/-- C7: the seed authority splits at every fixed arity from 2 through 8 and
generically n-ways; each split is a total function consuming the parent (it
takes the seed by value) and the children are pairwise independent: they
occupy pairwise distinct positions of the split tree, hence mint pairwise
distinct identities. -/
theorem c7_split_arities (s : Seed) (n : Nat) :
    [s.replicate.1, s.replicate.2].Pairwise (· ≠ ·) ∧
    [s.replicate_3.1, s.replicate_3.2.1,
      s.replicate_3.2.2].Pairwise (· ≠ ·) ∧
    [s.replicate_4.1, s.replicate_4.2.1, s.replicate_4.2.2.1,
      s.replicate_4.2.2.2].Pairwise (· ≠ ·) ∧
    [s.replicate_5.1, s.replicate_5.2.1, s.replicate_5.2.2.1,
      s.replicate_5.2.2.2.1, s.replicate_5.2.2.2.2].Pairwise (· ≠ ·) ∧
    [s.replicate_6.1, s.replicate_6.2.1, s.replicate_6.2.2.1,
      s.replicate_6.2.2.2.1, s.replicate_6.2.2.2.2.1,
      s.replicate_6.2.2.2.2.2].Pairwise (· ≠ ·) ∧
    [s.replicate_7.1, s.replicate_7.2.1, s.replicate_7.2.2.1,
      s.replicate_7.2.2.2.1, s.replicate_7.2.2.2.2.1,
      s.replicate_7.2.2.2.2.2.1,
      s.replicate_7.2.2.2.2.2.2].Pairwise (· ≠ ·) ∧
    [s.replicate_8.1, s.replicate_8.2.1, s.replicate_8.2.2.1,
      s.replicate_8.2.2.2.1, s.replicate_8.2.2.2.2.1,
      s.replicate_8.2.2.2.2.2.1, s.replicate_8.2.2.2.2.2.2.1,
      s.replicate_8.2.2.2.2.2.2.2].Pairwise (· ≠ ·) ∧
    (s.replicate_n n).length = n ∧
    (s.replicate_n n).Pairwise (· ≠ ·) := by
  have key : ∀ (l : List Nat), l.Pairwise (· ≠ ·) →
      (l.map (fun i => (⟨s.path ++ [i]⟩ : Seed))).Pairwise (· ≠ ·) :=
    fun l hl => hl.map _ (fun a b hab => seed_child_ne s.path hab)
  refine ⟨key [0, 1] (by decide), key [0, 1, 2] (by decide),
    key [0, 1, 2, 3] (by decide), key [0, 1, 2, 3, 4] (by decide),
    key [0, 1, 2, 3, 4, 5] (by decide),
    key [0, 1, 2, 3, 4, 5, 6] (by decide),
    key [0, 1, 2, 3, 4, 5, 6, 7] (by decide), ?_, ?_⟩
  · unfold Seed.replicate_n
    simp
  · unfold Seed.replicate_n
    exact (List.pairwise_lt_range n).map _
      (fun a b hab => seed_child_ne s.path (Nat.ne_of_lt hab))

/-- C8: identities minted by independent mint operations are never the same:
seeds at distinct positions of the split tree mint distinct name tags, even
when the tagged values are equal, and in particular the first children of
the two branches of a split (identical split position, different branches)
mint distinct names.  Since witness types are indexed by these name tags, a
witness indexed by one of the two names has a type with a different index
than the type a consumer of the other identity demands — the embedding of
the type checker's rejection. -/
theorem c8_identity_disjointness (s s1 s2 : Seed) (h : s1.path ≠ s2.path) :
    s1.new_name ≠ s2.new_name ∧
    (∀ (V : Type) (v : V), (s1.new_named v).name ≠ (s2.new_named v).name) ∧
    s.replicate.1.replicate.1.new_name ≠
      s.replicate.2.replicate.1.new_name := by
  refine ⟨h, fun V v => h, ?_⟩
  unfold Seed.replicate Seed.new_name
  intro hc
  simp only [List.append_assoc] at hc
  have := List.append_cancel_left hc
  simp at this

/-- Witness for C8: concrete seeds at positions `[0]` and `[1]` mint
distinct names even when both tag the value 7, and the concrete
same-position sibling mints of the root seed's two branches differ. -/
theorem c8_identity_disjointness_witness :
    (Seed.mk [0]).new_name ≠ (Seed.mk [1]).new_name ∧
    ((Seed.mk [0]).new_named 7).name ≠ ((Seed.mk [1]).new_named 7).name ∧
    (Seed.mk []).replicate.1.replicate.1.new_name ≠
      (Seed.mk []).replicate.2.replicate.1.new_name := by
  have h := c8_identity_disjointness ⟨[]⟩ ⟨[0]⟩ ⟨[1]⟩ (by decide)
  exact ⟨h.1, h.2.1 Nat 7, h.2.2⟩

/-- `maybe_greater_than_half_positive` reduces to a single test: the
(wrapped) doubled positive count against the list length. -/
theorem maybe_gthp_eq (seed : Seed) (d : Named (List Int)) :
    maybe_greater_than_half_positive seed d =
      (if (d.value.filter (fun x => decide (0 < x))).length * 2 % usizeMod >
          d.value.length then
        some ⟨⟩
      else none) := by
  unfold maybe_greater_than_half_positive greater_than_half list_size
    count_positive_integers new_exist_size new_exist_positives
  simp only [Seed.new_named]
  split <;> rfl

/-- C4: `process_data` of `examples/list.rs` succeeds with `Ok 0` exactly
when twice the number of strictly positive entries exceeds the list length,
and otherwise returns `Err(LessThanHalfPositive)`.  The hypothesis
`data.length < 2 ^ 63` models the capacity bound of a Rust `Vec<i64>`
(allocations are below `isize::MAX` bytes, so its length is below `2 ^ 61`);
it keeps the unchecked `usize` doubling inside `greater_than_half` from
wrapping. -/
theorem c4_process_data (data : List Int) (h : data.length < 2 ^ 63) :
    (process_data data = Except.ok 0 ↔
      2 * (data.filter (fun x => decide (0 < x))).length > data.length) ∧
    (process_data data = Except.error ListError.LessThanHalfPositive ↔
      ¬ 2 * (data.filter (fun x => decide (0 < x))).length >
        data.length) := by
  have hle : (data.filter (fun x => decide (0 < x))).length ≤ data.length :=
    List.length_filter_le _ _
  have hmod : (data.filter (fun x => decide (0 < x))).length * 2 % usizeMod =
      (data.filter (fun x => decide (0 < x))).length * 2 :=
    Nat.mod_eq_of_lt (by unfold usizeMod; omega)
  unfold process_data with_seed
  dsimp only
  rw [maybe_gthp_eq]
  simp only [Seed.new_named, Seed.replicate, hmod]
  by_cases hc :
      2 * (data.filter (fun x => decide (0 < x))).length > data.length
  · rw [if_pos (by omega)]
    simp [process_data_static, hc]
  · rw [if_neg (by omega)]
    simp [hc]

/-- Witness for C4 at the concrete scenarios: the 5-element list
`[3, 2, 1, 0, -1]` has 3 positive entries and `6 > 5`, so processing
succeeds; the 6-element list `[3, 2, 1, 0, -1, -2]` has 3 positive entries
and `6` is not `> 6`, so processing reports `LessThanHalfPositive`. -/
theorem c4_process_data_witness :
    process_data [3, 2, 1, 0, -1] = Except.ok 0 ∧
    process_data [3, 2, 1, 0, -1, -2] =
      Except.error ListError.LessThanHalfPositive := by
  constructor
  · exact (c4_process_data [3, 2, 1, 0, -1] (by decide)).1.mpr (by decide)
  · exact (c4_process_data [3, 2, 1, 0, -1, -2] (by decide)).2.mpr
      (by decide)

/-- C10 counterexample: the claim asserts the outcome of
`greater_than_half` agrees with the mathematical condition `2 * x > y`
ONLY when `2 * x` does not overflow `usize` (and that past
`usize::MAX / 2` the witness no longer tracks the condition); yet at
`x = 2 ^ 63 + 1 > usize::MAX / 2`, `y = 1`, the product overflows
(wrapping to 2) and the outcome still agrees with `2 * x > y` — both are
true. -/
theorem c10_overflow_agreement_counterexample :
    2 ^ 63 + 1 > (2 ^ 64 - 1) / 2 ∧
    (2 ^ 63 + 1) * 2 ≥ 2 ^ 64 ∧
    ((greater_than_half ⟨[0], 2 ^ 63 + 1⟩ ⟨[1], 1⟩).isSome ↔
      2 * (2 ^ 63 + 1) > 1) := by
  refine ⟨by norm_num, by norm_num, ?_⟩
  decide

/-- C10 (amended): `greater_than_half` doubles `x` with unchecked `usize`
multiplication (wrapping modulo `2 ^ 64` in release builds) before comparing
against `y`; whenever `2 * x` does not overflow, the present/absent outcome
coincides with the mathematical condition `2 * x > y`; for
`x = 2 ^ 63 > usize::MAX / 2` and `y = 0` the product wraps to 0 and the
witness is absent although `2 * x > y` holds — under overflow the outcome no
longer reliably tracks the intended condition (though on some overflowing
inputs it may coincidentally agree). -/
theorem c10_greater_than_half_wrapping (x y : Named Nat) :
    (x.value * 2 < usizeMod →
      ((greater_than_half x y).isSome ↔ 2 * x.value > y.value)) ∧
    ((greater_than_half ⟨[0], 2 ^ 63⟩ ⟨[1], 0⟩).isSome = false ∧
      2 ^ 63 > (2 ^ 64 - 1) / 2 ∧ 2 * 2 ^ 63 > 0) := by
  refine ⟨?_, by decide, by norm_num, by norm_num⟩
  intro hov
  unfold greater_than_half
  rw [Nat.mod_eq_of_lt hov]
  split <;> rename_i hsplit <;> simp <;> omega

/-- Witness for C10 (amended) at concrete inputs: with `x = 3`, `y = 2`
(no overflow) the outcome matches `2 * 3 > 2`, and at the overflowing input
`x = 2 ^ 63`, `y = 0` the witness is absent. -/
theorem c10_greater_than_half_wrapping_witness :
    ((greater_than_half ⟨[], 3⟩ ⟨[], 2⟩).isSome ↔ 2 * 3 > 2) ∧
    (greater_than_half ⟨[0], 2 ^ 63⟩ ⟨[1], 0⟩).isSome = false := by
  have h := c10_greater_than_half_wrapping ⟨[], 3⟩ ⟨[], 2⟩
  exact ⟨h.1 (by decide), h.2.1⟩

end Mononym
